import Mathlib

/-!
Verification development for the `2pdf` server (`back.js`): a small Express
application exposing `POST /api/suggest-title` and `POST /api/print-pdf`.
JavaScript strings are modelled as `List Char`; the external collaborators
(the page fetch, the LLM completions endpoint, and the puppeteer browser
automation calls) are modelled as oracles supplying the outcome of each
awaited call, and the handlers are pure functions of those oracles that also
return the list of observable resource/network events they perform.
-/

namespace TwoPdf

/-- JavaScript strings are modelled as lists of characters. -/
abbrev Str := List Char

/-- The characters stripped by the sanitizer's regex character class
`[\\/:*?"<>|]` (back.js line 31).  The backslash and the double quote are
written via their code points. -/
def isReserved (c : Char) : Bool :=
  c == Char.ofNat 92 || c == '/' || c == ':' || c == '*' || c == '?' ||
  c == Char.ofNat 34 || c == '<' || c == '>' || c == '|'

/-- Whitespace as removed by JavaScript `String.prototype.trim`:
space, tab, LF, VT, FF, CR, NBSP, BOM (by code point). -/
def isJsWhitespace (c : Char) : Bool :=
  c.toNat == 32 || c.toNat == 9 || c.toNat == 10 || c.toNat == 11 ||
  c.toNat == 12 || c.toNat == 13 || c.toNat == 160 || c.toNat == 65279

/-- `replace(/[\\/:*?"<>|]+/g, '-')`: every maximal run of reserved
characters becomes a single hyphen.  The `prev` flag records whether the
previous character belonged to a reserved run (so the run contributes only
one hyphen). -/
def replaceReservedAux : Bool → Str → Str
  | _, [] => []
  | prev, c :: cs =>
    if isReserved c then
      (if prev then replaceReservedAux true cs
       else '-' :: replaceReservedAux true cs)
    else c :: replaceReservedAux false cs

/-- `s.replace(/[\\/:*?"<>|]+/g, '-')` (back.js line 31). -/
def replaceReserved (s : Str) : Str := replaceReservedAux false s

/-- Drop leading JS whitespace (the left half of `trim`). -/
def trimLeft (s : Str) : Str := s.dropWhile isJsWhitespace

/-- Drop trailing JS whitespace (the right half of `trim`). -/
def trimRight (s : Str) : Str := (s.reverse.dropWhile isJsWhitespace).reverse

/-- JavaScript `s.trim()`: remove leading and trailing whitespace. -/
def jsTrim (s : Str) : Str := trimRight (trimLeft s)

/-- The literal fallback filename `'document'` (back.js line 31). -/
def docStr : Str := "document".toList

/-- `(name || 'document')`: a missing (`null`/`undefined`) or empty string
argument is replaced by the default. -/
def sanitizeBase : Option Str → Str
  | none => docStr
  | some s => if s = [] then docStr else s

/-- The method chain `.replace(/[\\/:*?"<>|]+/g, '-').trim().slice(0, 120)`
of back.js line 31, applied to the non-defaulted base. -/
def sanitizeCore (s : Str) : Str := (jsTrim (replaceReserved s)).take 120

/-- `sanitizeFilename` (back.js lines 30-32):
`(name || 'document').replace(/[\\/:*?"<>|]+/g, '-').trim().slice(0, 120) || 'document'`. -/
def sanitizeFilename (name : Option Str) : Str :=
  if sanitizeCore (sanitizeBase name) = [] then docStr
  else sanitizeCore (sanitizeBase name)

/-- Char-list comparison used by the URL model: does `s` begin with `pre`? -/
def hasPre : Str → Str → Bool
  | [], _ => true
  | _ :: _, [] => false
  | p :: ps, c :: cs => p == c && hasPre ps cs

def httpPre : Str := "http://".toList

def httpsPre : Str := "https://".toList

/-- `isValidHttpUrl` (back.js lines 23-28).  `new URL(str)` is an external
library call; it is modelled at the boundary as: parsing succeeds with an
`http:`/`https:` protocol exactly when the string starts with `http://` or
`https://` followed by at least one further character.  A missing argument
(`undefined`, as when the request body is absent) makes `new URL` throw,
which the `catch` turns into `false`. -/
def isValidHttpUrl : Option Str → Bool
  | none => false
  | some s =>
    (hasPre httpPre s && decide (7 < s.length)) ||
    (hasPre httpsPre s && decide (8 < s.length))

/-- The scale expression of back.js line 134,
`Math.max(0.1, Math.min(2, Number(scale) || 1))`, together with the
destructuring default `scale = 1` of line 75 (`none` = field absent).
Note `Number(scale) || 1` maps the falsy numeric value `0` to `1`. -/
def effectiveScale (scale : Option ℚ) : ℚ :=
  max ((1 : ℚ) / 10)
    (min 2 (if scale.getD 1 = 0 then 1 else scale.getD 1))

/-- Outcome of the awaited `fetch` to `${OPENAI_BASE_URL}/chat/completions`
(back.js lines 40-57) when the promise resolves: the HTTP success flag
`res.ok`, the error body text, and `data.choices?.[0]?.message?.content`
(`none` when any link of that optional chain is absent). -/
structure LlmResp where
  ok : Bool
  body : Str
  content : Option Str
deriving DecidableEq

/-- Outcome of the awaited `fetch(url, { redirect: 'follow' })` of back.js
line 66 when it resolves: `res.ok` and the text of the body. -/
structure PageResp where
  ok : Bool
  body : Str
deriving DecidableEq

/-- Observable resource and network events performed by a handler. -/
inductive Event
  | browserLaunched
  | browserClosed
  | llmRequest (text url : Str)
  | pdfRequested (scale : ℚ)
deriving DecidableEq

/-- The HTTP responses the two handlers can produce. -/
inductive HttpResp
  | json200 (title : Str)
  | json400 (err : Str)
  | json500 (err : Str)
  | badRequestText (msg : Str)
  | serverErrorText (msg : Str)
  | pdfOk (filename : Str) (bytes : List Nat)
deriving DecidableEq

/-- HTTP status code of a response. -/
def HttpResp.status : HttpResp → Nat
  | json200 _ => 200
  | json400 _ => 400
  | json500 _ => 500
  | badRequestText _ => 400
  | serverErrorText _ => 500
  | pdfOk _ _ => 200

def llmErrPre : Str := "LLM error: ".toList

def invalidUrlMsg : Str := "Invalid URL".toList

def failPre : Str := "Failed to generate PDF: ".toList

def pdfExt : Str := ".pdf".toList

/-- Network events of `suggestTitleFromText` (back.js lines 34-60): with no
API key configured the function returns before any I/O; otherwise it issues
exactly one completions request whose user message embeds the destination
URL and `text.slice(0, 6000)` (line 39). -/
def suggestTitleEvents (apiKey text url : Str) : List Event :=
  if apiKey = [] then [] else [Event.llmRequest (text.take 6000) url]

/-- Result of `suggestTitleFromText` (back.js lines 34-60), as a function of
the configured key and the oracle giving the completions call's outcome:
no key ⇒ `null` (line 35); rejected fetch ⇒ the rejection propagates;
`!res.ok` ⇒ throw `LLM error: ...` (line 56); otherwise the trimmed
completion text, with empty/absent content collapsing to `null`
(lines 58-59). -/
def suggestTitleFromText (apiKey : Str) (llm : Except Str LlmResp) :
    Except Str (Option Str) :=
  if apiKey = [] then .ok none
  else
    match llm with
    | .error e => .error e
    | .ok r =>
      if r.ok = false then .error (llmErrPre ++ r.body)
      else
        match r.content with
        | none => .ok none
        | some c => if jsTrim c = [] then .ok none else .ok (some (jsTrim c))

/-- Request body of `POST /api/suggest-title` (`{url}`); the `url` field may
itself be absent. -/
structure TitleBody where
  url : Option Str
deriving DecidableEq

/-- External outcomes consumed by one `POST /api/suggest-title` request. -/
structure TitleOracle where
  apiKey : Str
  pageFetch : Except Str PageResp
  llm : Except Str LlmResp

/-- The `POST /api/suggest-title` handler (back.js lines 62-72).
`req.body || {}` is the `Option.getD`; note that line 66 reads the fetched
response's text without ever inspecting `res.ok`, so a non-success page
response is processed exactly like a success.  Any rejection inside the
`try` is answered with `500 {error}`. -/
def suggestTitleHandler (o : TitleOracle) (req : Option TitleBody) :
    List Event × HttpResp :=
  let url := (req.getD ⟨none⟩).url
  if isValidHttpUrl url then
    match o.pageFetch with
    | .error e => ([], HttpResp.json500 e)
    | .ok pr =>
      let evs := suggestTitleEvents o.apiKey pr.body (url.getD [])
      match suggestTitleFromText o.apiKey o.llm with
      | .error e => (evs, HttpResp.json500 e)
      | .ok none => (evs, HttpResp.json200 docStr)
      | .ok (some t) =>
        (evs, HttpResp.json200 (if t = [] then docStr else sanitizeFilename (some t)))
  else ([], HttpResp.json400 invalidUrlMsg)

/-- Request body of `POST /api/print-pdf` (back.js line 75); every field may
be absent, in which case the destructuring default applies. -/
structure PrintBody where
  url : Option Str
  format : Option Str
  scale : Option ℚ
  landscape : Option Bool
  printBackground : Option Bool
  useLLM : Option Bool

/-- The empty object `{}` substituted for an absent body (line 75). -/
def PrintBody.empty : PrintBody := ⟨none, none, none, none, none, none⟩

/-- External outcomes consumed by one `POST /api/print-pdf` request: each
awaited puppeteer call either resolves or rejects, plus the LLM
configuration and outcome for the optional title step. -/
structure PdfOracle where
  apiKey : Str
  llm : Except Str LlmResp
  launch : Except Str Unit
  newPage : Except Str Unit
  setHeaders : Except Str Unit
  goto : Except Str Unit
  addStyleTag : Except Str Unit
  title : Except Str Str
  evaluate : Except Str Str
  pdf : Except Str (List Nat)

/-- Sequencing of one awaited step inside the `try` block: a rejection
aborts the rest of the body and propagates as the thrown error. -/
def stepThen {α β : Type} (x : Except Str α)
    (f : α → List Event × Except Str β) : List Event × Except Str β :=
  match x with
  | .error e => ([], .error e)
  | .ok a => f a

/-- The body of the `try` block of `POST /api/print-pdf` after the browser
launch succeeded (back.js lines 84-140): open a page, set headers, navigate,
inject styles, read the title, extract the main text, optionally ask the LLM
for a better filename base (lines 119-127: a thrown LLM error or a `null`
result silently keeps `pageTitle || 'document'`), sanitize and append
`.pdf`, then produce the PDF with the clamped scale. -/
def printPdfBody (o : PdfOracle) (b : PrintBody) :
    List Event × Except Str HttpResp :=
  stepThen o.newPage fun _ =>
  stepThen o.setHeaders fun _ =>
  stepThen o.goto fun _ =>
  stepThen o.addStyleTag fun _ =>
  stepThen o.title fun pageTitle =>
  stepThen o.evaluate fun mainText =>
    let base := if pageTitle = [] then docStr else pageTitle
    let llmText := if mainText = [] then pageTitle else mainText
    let evs :=
      if b.useLLM.getD false then
        suggestTitleEvents o.apiKey llmText (b.url.getD [])
      else []
    let base2 :=
      if b.useLLM.getD false then
        match suggestTitleFromText o.apiKey o.llm with
        | .error _ => base
        | .ok none => base
        | .ok (some t) => if t = [] then base else t
      else base
    let filename := sanitizeFilename (some base2) ++ pdfExt
    let sc := effectiveScale b.scale
    match o.pdf with
    | .error e => (evs ++ [Event.pdfRequested sc], .error e)
    | .ok bytes => (evs ++ [Event.pdfRequested sc], .ok (HttpResp.pdfOk filename bytes))

/-- The `POST /api/print-pdf` handler (back.js lines 74-146).  `let browser`
starts undefined; the `finally` block closes the browser exactly when the
launch assigned it (`if (browser) await browser.close()`), whether the `try`
body returned normally or threw; a thrown error is answered by the `catch`
with `500 Failed to generate PDF: ...`. -/
def printPdf (o : PdfOracle) (req : Option PrintBody) :
    List Event × HttpResp :=
  let b := req.getD PrintBody.empty
  if isValidHttpUrl b.url then
    match o.launch with
    | .error e => ([], HttpResp.serverErrorText (failPre ++ e))
    | .ok _ =>
      let r := printPdfBody o b
      let resp :=
        match r.2 with
        | .ok resp => resp
        | .error e => HttpResp.serverErrorText (failPre ++ e)
      (Event.browserLaunched :: (r.1 ++ [Event.browserClosed]), resp)
  else ([], HttpResp.badRequestText invalidUrlMsg)

/-! ### Helper lemmas about the sanitizer's building blocks -/

theorem mem_replaceReservedAux {c : Char} :
    ∀ (prev : Bool) (l : Str), c ∈ replaceReservedAux prev l → isReserved c = false := by
  intro prev l
  induction l generalizing prev with
  | nil => simp [replaceReservedAux]
  | cons a l ih =>
    by_cases ha : isReserved a
    · cases prev with
      | true =>
        simp only [replaceReservedAux, ha, if_true]
        exact ih true
      | false =>
        simp only [replaceReservedAux, ha, if_true]
        intro hc
        rcases List.mem_cons.mp hc with rfl | hc
        · decide
        · exact ih true hc
    · simp only [replaceReservedAux, ha, if_false]
      intro hc
      rcases List.mem_cons.mp hc with rfl | hc
      · simpa using ha
      · exact ih false hc

theorem length_replaceReservedAux_le :
    ∀ (prev : Bool) (l : Str), (replaceReservedAux prev l).length ≤ l.length := by
  intro prev l
  induction l generalizing prev with
  | nil => simp [replaceReservedAux]
  | cons a l ih =>
    by_cases ha : isReserved a
    · cases prev with
      | true =>
        simp only [replaceReservedAux, ha, if_true]
        exact Nat.le_succ_of_le (ih true)
      | false =>
        simp only [replaceReservedAux, ha, if_true, List.length_cons]
        exact Nat.succ_le_succ (ih true)
    · simp only [replaceReservedAux, ha, if_false, List.length_cons]
      exact Nat.succ_le_succ (ih false)

theorem replaceReservedAux_eq_self {l : Str}
    (h : ∀ c ∈ l, isReserved c = false) : ∀ prev, replaceReservedAux prev l = l := by
  induction l with
  | nil => intro prev; rfl
  | cons a l ih =>
    intro prev
    have ha : isReserved a = false := h a (List.mem_cons_self a l)
    simp only [replaceReservedAux, ha, Bool.false_eq_true, if_false]
    rw [ih (fun c hc => h c (List.mem_cons_of_mem a hc)) false]

theorem dropWhile_dropWhile (p : Char → Bool) (l : Str) :
    List.dropWhile p (List.dropWhile p l) = List.dropWhile p l := by
  induction l with
  | nil => rfl
  | cons a l ih =>
    by_cases ha : p a
    · rw [List.dropWhile_cons_of_pos ha, ih]
    · rw [List.dropWhile_cons_of_neg ha, List.dropWhile_cons_of_neg ha]

theorem not_of_dropWhile_eq_cons {p : Char → Bool} :
    ∀ {l r : Str} {c : Char}, List.dropWhile p l = c :: r → p c = false := by
  intro l
  induction l with
  | nil => intro r c h; simp [List.dropWhile] at h
  | cons a l ih =>
    intro r c h
    by_cases ha : p a
    · rw [List.dropWhile_cons_of_pos ha] at h
      exact ih h
    · rw [List.dropWhile_cons_of_neg ha] at h
      cases h
      simpa using ha

theorem mem_trimRight {c : Char} {l : Str} (h : c ∈ trimRight l) : c ∈ l := by
  unfold trimRight at h
  rw [List.mem_reverse] at h
  have := (List.dropWhile_sublist isJsWhitespace (l := l.reverse)).subset h
  exact List.mem_reverse.mp this

theorem mem_jsTrim {c : Char} {l : Str} (h : c ∈ jsTrim l) : c ∈ l := by
  unfold jsTrim trimLeft at h
  exact (List.dropWhile_sublist isJsWhitespace (l := l)).subset (mem_trimRight h)

theorem length_trimRight_le (l : Str) : (trimRight l).length ≤ l.length := by
  unfold trimRight
  rw [List.length_reverse]
  calc (l.reverse.dropWhile isJsWhitespace).length
      ≤ l.reverse.length := (List.dropWhile_sublist isJsWhitespace).length_le
    _ = l.length := List.length_reverse l

theorem length_jsTrim_le (l : Str) : (jsTrim l).length ≤ l.length := by
  unfold jsTrim trimLeft
  exact le_trans (length_trimRight_le _)
    (List.dropWhile_sublist isJsWhitespace (l := l)).length_le

theorem trimRight_append (l : Str) : ∃ t, trimRight l ++ t = l := by
  obtain ⟨u, hu⟩ := List.dropWhile_suffix isJsWhitespace (l := l.reverse)
  refine ⟨u.reverse, ?_⟩
  have := congrArg List.reverse hu
  rw [List.reverse_append, List.reverse_reverse] at this
  exact this

theorem trimRight_trimRight (l : Str) : trimRight (trimRight l) = trimRight l := by
  unfold trimRight
  rw [List.reverse_reverse, dropWhile_dropWhile]

theorem trimLeft_trimRight_trimLeft (l : Str) :
    trimLeft (trimRight (trimLeft l)) = trimRight (trimLeft l) := by
  unfold trimLeft
  rcases htr : trimRight (List.dropWhile isJsWhitespace l) with _ | ⟨c, r⟩
  · simp
  · obtain ⟨t, ht⟩ := trimRight_append (List.dropWhile isJsWhitespace l)
    rw [htr] at ht
    have hx : List.dropWhile isJsWhitespace l = c :: (r ++ t) := by
      rw [← ht]; simp
    have hc : isJsWhitespace c = false := not_of_dropWhile_eq_cons hx
    rw [List.dropWhile_cons_of_neg (by simp [hc])]

theorem jsTrim_jsTrim (l : Str) : jsTrim (jsTrim l) = jsTrim l := by
  unfold jsTrim
  rw [trimLeft_trimRight_trimLeft, trimRight_trimRight]

theorem mem_sanitizeCore {c : Char} {s : Str} (h : c ∈ sanitizeCore s) :
    isReserved c = false := by
  unfold sanitizeCore at h
  exact mem_replaceReservedAux false s (mem_jsTrim (List.take_subset 120 _ h))

theorem length_sanitizeCore_le (s : Str) : (sanitizeCore s).length ≤ 120 := by
  unfold sanitizeCore
  exact List.length_take_le 120 (jsTrim (replaceReserved s))

theorem sanitizeCore_of_short {s : Str} (h : s.length ≤ 120) :
    sanitizeCore s = jsTrim (replaceReserved s) := by
  unfold sanitizeCore
  exact List.take_of_length_le
    (le_trans (length_jsTrim_le _) (le_trans (length_replaceReservedAux_le false s) h))

theorem sanitizeFilename_doc : sanitizeFilename (some docStr) = docStr := by decide

/-! ### Claims about the filename sanitizer -/

/-- C4 (counterexample): the sanitizer does not map `"***"` to `"document"`.
The run of three stars becomes a single hyphen, which is non-empty, so the
final `|| 'document'` fallback of back.js line 31 does not fire. -/
theorem sanitize_stars_not_document :
    sanitizeFilename (some ("***".toList)) ≠ docStr := by decide

/-- C4 (amended): the empty string and a null/absent argument sanitize to
`"document"`, but `"***"` sanitizes to `"-"`: the reserved-character run is
replaced by a single hyphen and the result is non-empty, so the default is
not substituted. -/
theorem sanitize_defaults_amended :
    sanitizeFilename none = docStr ∧
    sanitizeFilename (some []) = docStr ∧
    sanitizeFilename (some ("***".toList)) = "-".toList := by decide

/-- C5: for every input (including the absent one), the sanitizer's output
contains none of the reserved characters `\ / : * ? " < > |` and has length
at most 120. -/
theorem sanitize_reserved_free_and_bounded (s : Option Str) :
    (∀ c ∈ sanitizeFilename s, isReserved c = false) ∧
    (sanitizeFilename s).length ≤ 120 := by
  by_cases h : sanitizeCore (sanitizeBase s) = []
  · simp only [sanitizeFilename, h, if_true]
    exact ⟨by decide, by decide⟩
  · simp only [sanitizeFilename, h, if_false]
    exact ⟨fun c hc => mem_sanitizeCore hc, length_sanitizeCore_le _⟩

/-- C5 witness: the sanitizer's guarantees evaluated at `"a/b"`. -/
theorem sanitize_reserved_free_and_bounded_witness :
    (∀ c ∈ sanitizeFilename (some ("a/b".toList)), isReserved c = false) ∧
    (sanitizeFilename (some ("a/b".toList))).length ≤ 120 :=
  sanitize_reserved_free_and_bounded (some ("a/b".toList))

/-- A 121-character string: truncation to 120 characters happens after
trimming, so the sanitized result ends in whitespace. -/
def c6Input : Str := 'a' :: (List.replicate 119 ' ' ++ ['b'])

/-- C6 (counterexample): the sanitizer is not idempotent.  For the
121-character input `"a" ++ 119 spaces ++ "b"`, the first application trims
nothing (no leading/trailing whitespace) and then truncates to
`"a" ++ 119 spaces`, which ends in whitespace; the second application trims
it down to `"a"`. -/
theorem sanitize_not_idempotent_long :
    sanitizeFilename (some (sanitizeFilename (some c6Input))) ≠
      sanitizeFilename (some c6Input) := by decide

/-- C6 (amended): the sanitizer is idempotent on every input of length at
most 120 — for such inputs `.slice(0, 120)` is the identity, so the output
is trimmed, free of reserved characters, short, and non-empty, and a second
pass changes nothing.  (Idempotence fails only when truncation cuts the
string so that trailing whitespace is exposed, which requires a longer
input; see the counterexample.) -/
theorem sanitize_idempotent_of_short (s : Str) (h : s.length ≤ 120) :
    sanitizeFilename (some (sanitizeFilename (some s))) = sanitizeFilename (some s) := by
  by_cases hs : s = []
  · subst hs; decide
  · have hbase : sanitizeBase (some s) = s := by simp [sanitizeBase, hs]
    have hcore : sanitizeCore s = jsTrim (replaceReserved s) := sanitizeCore_of_short h
    by_cases hr : sanitizeCore s = []
    · have hdoc : sanitizeFilename (some s) = docStr := by
        simp [sanitizeFilename, hbase, hr]
      rw [hdoc, sanitizeFilename_doc]
    · have h1 : sanitizeFilename (some s) = sanitizeCore s := by
        simp [sanitizeFilename, hbase, hr]
      rw [h1]
      have hbase2 : sanitizeBase (some (sanitizeCore s)) = sanitizeCore s := by
        simp [sanitizeBase, hr]
      have hnores : ∀ c ∈ sanitizeCore s, isReserved c = false :=
        fun _ hc => mem_sanitizeCore hc
      have hrep : replaceReserved (sanitizeCore s) = sanitizeCore s :=
        replaceReservedAux_eq_self hnores false
      have htrim : jsTrim (sanitizeCore s) = sanitizeCore s := by
        rw [hcore]; exact jsTrim_jsTrim _
      have hcore2 : sanitizeCore (sanitizeCore s) = sanitizeCore s := by
        rw [sanitizeCore_of_short (length_sanitizeCore_le s), hrep, htrim]
      simp [sanitizeFilename, hbase2, hcore2, hr]

/-- C6 witness: idempotence evaluated at the short input `" a "`. -/
theorem sanitize_idempotent_of_short_witness :
    (" a ".toList).length ≤ 120 ∧
    sanitizeFilename (some (sanitizeFilename (some (" a ".toList)))) =
      sanitizeFilename (some (" a ".toList)) :=
  ⟨by decide, sanitize_idempotent_of_short (" a ".toList) (by decide)⟩

/-! ### Claims about the scale clamp -/

/-- C7 (counterexample): the scale actually passed at `scale = 0` is `1`,
not the clamp of the input to `[0.1, 2.0]` (which would be `0.1`): line 134
computes `Number(scale) || 1`, which maps the falsy numeric value `0` to the
default `1` before clamping. -/
theorem scale_zero_not_clamped :
    effectiveScale (some 0) = 1 ∧
    max ((1 : ℚ) / 10) (min 2 0) = 1 / 10 ∧
    (1 : ℚ) ≠ 1 / 10 := by
  refine ⟨?_, ?_, by norm_num⟩
  · simp only [effectiveScale, Option.getD_some, if_pos rfl, if_true]
    rw [min_eq_right (by norm_num : (1 : ℚ) ≤ 2), max_eq_right (by norm_num : (1 : ℚ) / 10 ≤ 1)]
  · rw [min_eq_right (by norm_num : (0 : ℚ) ≤ 2), max_eq_left (by norm_num : (0 : ℚ) ≤ 1 / 10)]

/-- C7 (amended): for every nonzero numeric scale the value passed to PDF
production is the input clamped to `[0.1, 2.0]` — in particular `10` is
clamped to `2` and `-1` to `0.1` — while the falsy value `0` is replaced by
the default `1`; in every case the passed value lies in `[0.1, 2.0]`. -/
theorem scale_clamp_amended :
    (∀ x : ℚ, x ≠ 0 → effectiveScale (some x) = max ((1 : ℚ) / 10) (min 2 x)) ∧
    effectiveScale (some 10) = 2 ∧
    effectiveScale (some (-1)) = 1 / 10 ∧
    effectiveScale (some 0) = 1 ∧
    (∀ s : Option ℚ, (1 : ℚ) / 10 ≤ effectiveScale s ∧ effectiveScale s ≤ 2) := by
  refine ⟨?_, ?_, ?_, ?_, ?_⟩
  · intro x hx
    simp [effectiveScale, hx]
  · have h := min_eq_left (by norm_num : (2 : ℚ) ≤ 10)
    simp only [effectiveScale, Option.getD_some, if_neg (by norm_num : (10 : ℚ) ≠ 0), h]
    rw [max_eq_right (by norm_num : (1 : ℚ) / 10 ≤ 2)]
  · have h := min_eq_right (by norm_num : (-1 : ℚ) ≤ 2)
    simp only [effectiveScale, Option.getD_some, if_neg (by norm_num : (-1 : ℚ) ≠ 0), h]
    rw [max_eq_left (by norm_num : (-1 : ℚ) ≤ 1 / 10)]
  · simp only [effectiveScale, Option.getD_some, if_pos rfl, if_true]
    rw [min_eq_right (by norm_num : (1 : ℚ) ≤ 2), max_eq_right (by norm_num : (1 : ℚ) / 10 ≤ 1)]
  · intro s
    exact ⟨le_max_left _ _, max_le (by norm_num) (min_le_left _ _)⟩

/-- C7 witness: the amended clamp law evaluated at the nonzero scale `5`. -/
theorem scale_clamp_amended_witness :
    effectiveScale (some 5) = max ((1 : ℚ) / 10) (min 2 5) :=
  scale_clamp_amended.1 5 (by norm_num)

/-! ### Claims about the title-suggestion client -/

/-- C8: with no API key configured, `suggestTitleFromText` returns `null`
(`Except.ok none`, so it never throws) for every possible completions
outcome and every `(text, url)` input, and performs no network request at
all. -/
theorem no_key_no_network_no_throw (llm : Except Str LlmResp) (text url : Str) :
    suggestTitleFromText [] llm = Except.ok none ∧
    suggestTitleEvents [] text url = [] :=
  ⟨rfl, rfl⟩

/-! ### Claims about the HTTP handlers -/

/-- C1: on every execution of `POST /api/print-pdf` in which the browser
launch succeeds (i.e. the launch event appears in the trace), the browser is
closed before the handler returns — whatever the outcome of navigation,
extraction, the optional LLM step, or PDF production. -/
theorem browser_closed_on_every_path (o : PdfOracle) (req : Option PrintBody) :
    Event.browserLaunched ∈ (printPdf o req).1 →
    Event.browserClosed ∈ (printPdf o req).1 := by
  intro h
  simp only [printPdf] at h ⊢
  by_cases hv : isValidHttpUrl (req.getD PrintBody.empty).url = true
  · simp only [hv, if_true] at h ⊢
    rcases hl : o.launch with e | u
    · rw [hl] at h
      simp at h
    · simp [List.mem_append]
  · simp [hv] at h

/-- Oracle for the C1 witness: every external call succeeds. -/
def w1Oracle : PdfOracle :=
  { apiKey := [], llm := Except.error ("unused".toList), launch := Except.ok (),
    newPage := Except.ok (), setHeaders := Except.ok (), goto := Except.ok (),
    addStyleTag := Except.ok (), title := Except.ok ("T".toList),
    evaluate := Except.ok ("body".toList), pdf := Except.ok [1, 2, 3] }

/-- Request body for the C1 witness. -/
def w1Body : PrintBody :=
  { url := some ("http://e".toList), format := none, scale := none,
    landscape := none, printBackground := none, useLLM := none }

/-- C1 witness: on a concrete successful run the launch event occurs and the
close event is therefore also in the trace. -/
theorem browser_closed_on_every_path_witness :
    Event.browserLaunched ∈ (printPdf w1Oracle (some w1Body)).1 ∧
    Event.browserClosed ∈ (printPdf w1Oracle (some w1Body)).1 :=
  ⟨by decide, browser_closed_on_every_path w1Oracle (some w1Body) (by decide)⟩

/-- C2: a `POST /api/print-pdf` request with a valid URL and `useLLM=true`
in which the title-suggestion call throws or returns `null` (and every
browser step succeeds) still responds 200 with the PDF bytes, and the
filename base falls back to the page's own title — or `"document"` when the
title is empty; the LLM failure never reaches the response. -/
theorem pdf_llm_failure_fallback (o : PdfOracle) (b : PrintBody) (t m : Str)
    (bytes : List Nat)
    (hv : isValidHttpUrl b.url = true)
    (hL : b.useLLM = some true)
    (h1 : o.launch = Except.ok ())
    (h2 : o.newPage = Except.ok ())
    (h3 : o.setHeaders = Except.ok ())
    (h4 : o.goto = Except.ok ())
    (h5 : o.addStyleTag = Except.ok ())
    (h6 : o.title = Except.ok t)
    (h7 : o.evaluate = Except.ok m)
    (hllm : (∃ e, suggestTitleFromText o.apiKey o.llm = Except.error e) ∨
      suggestTitleFromText o.apiKey o.llm = Except.ok none)
    (h8 : o.pdf = Except.ok bytes) :
    (printPdf o (some b)).2 =
      HttpResp.pdfOk (sanitizeFilename (some (if t = [] then docStr else t)) ++ pdfExt) bytes ∧
    ((printPdf o (some b)).2).status = 200 := by
  have heq : (printPdf o (some b)).2 =
      HttpResp.pdfOk (sanitizeFilename (some (if t = [] then docStr else t)) ++ pdfExt) bytes := by
    simp only [printPdf, Option.getD_some, hv, if_true, h1]
    rcases hllm with ⟨e, he⟩ | he <;>
      simp [printPdfBody, stepThen, h2, h3, h4, h5, h6, h7, h8, hL, he]
  exact ⟨heq, by rw [heq]; rfl⟩

/-- Oracle for the C2 witness: no API key is configured, so the title
suggestion returns `null`; everything else succeeds. -/
def w2Oracle : PdfOracle :=
  { apiKey := [], llm := Except.error ("unused".toList), launch := Except.ok (),
    newPage := Except.ok (), setHeaders := Except.ok (), goto := Except.ok (),
    addStyleTag := Except.ok (), title := Except.ok ("T".toList),
    evaluate := Except.ok ("body".toList), pdf := Except.ok [1, 2, 3] }

/-- Request body for the C2 witness: `useLLM = true`. -/
def w2Body : PrintBody :=
  { url := some ("http://e".toList), format := none, scale := none,
    landscape := none, printBackground := none, useLLM := some true }

/-- C2 witness: the fallback evaluated on a concrete request. -/
theorem pdf_llm_failure_fallback_witness :
    (printPdf w2Oracle (some w2Body)).2 =
      HttpResp.pdfOk
        (sanitizeFilename (some (if ("T".toList : Str) = [] then docStr else "T".toList)) ++ pdfExt)
        [1, 2, 3] ∧
    ((printPdf w2Oracle (some w2Body)).2).status = 200 :=
  pdf_llm_failure_fallback w2Oracle w2Body ("T".toList) ("body".toList) [1, 2, 3]
    (by decide) rfl rfl rfl rfl rfl rfl rfl rfl (Or.inr rfl) rfl

/-- Oracle for the C3 counterexample: the page fetch resolves with a
non-success status (`ok = false`, e.g. a 404) and a readable body; the LLM
call succeeds. -/
def c3Oracle : TitleOracle :=
  { apiKey := "k".toList,
    pageFetch := Except.ok { ok := false, body := "notfound".toList },
    llm := Except.ok { ok := true, body := [], content := some ("T".toList) } }

/-- Request for the C3 counterexample. -/
def c3Req : Option TitleBody := some ⟨some ("http://example.com".toList)⟩

/-- C3 (counterexample): a non-success HTTP response from the fetched page
does NOT surface as HTTP 500 on `POST /api/suggest-title`: line 66 of
back.js never inspects `res.ok` of the page fetch, so the handler proceeds
with the error page's body and responds 200. -/
theorem page_fetch_not_ok_still_200 :
    c3Oracle.pageFetch = Except.ok { ok := false, body := "notfound".toList } ∧
    ((suggestTitleHandler c3Oracle c3Req).2).status = 200 ∧
    ((suggestTitleHandler c3Oracle c3Req).2).status ≠ 500 :=
  ⟨rfl, by decide, by decide⟩

/-- C3 (amended): the title endpoint ignores the fetched page's success
flag entirely — the response is unchanged if the flag is flipped — while a
non-success response from the LLM provider does surface as HTTP 500
carrying the `LLM error:` message. -/
theorem title_upstream_amended :
    (∀ (o : TitleOracle) (req : Option TitleBody) (pr : PageResp) (flag : Bool),
      o.pageFetch = Except.ok pr →
      suggestTitleHandler { o with pageFetch := Except.ok { pr with ok := flag } } req =
        suggestTitleHandler o req) ∧
    (∀ (o : TitleOracle) (req : Option TitleBody) (pr : PageResp) (r : LlmResp),
      isValidHttpUrl (req.getD ⟨none⟩).url = true →
      o.apiKey ≠ [] →
      o.pageFetch = Except.ok pr →
      o.llm = Except.ok r →
      r.ok = false →
      (suggestTitleHandler o req).2 = HttpResp.json500 (llmErrPre ++ r.body)) := by
  constructor
  · intro o req pr flag h
    by_cases hv : isValidHttpUrl (req.getD ⟨none⟩).url = true <;>
      simp [suggestTitleHandler, h, hv]
  · intro o req pr r hv hkey hfetch hllm hok
    simp [suggestTitleHandler, hv, hfetch, suggestTitleFromText, hkey, hllm, hok]

/-- Oracle for the C3 witness: the LLM provider answers with a non-success
status. -/
def w3Oracle : TitleOracle :=
  { apiKey := "k".toList,
    pageFetch := Except.ok { ok := true, body := "<html/>".toList },
    llm := Except.ok { ok := false, body := "boom".toList, content := none } }

/-- Request for the C3 witness. -/
def w3Req : Option TitleBody := some ⟨some ("http://example.com".toList)⟩

/-- C3 witness: the amended LLM half evaluated on a concrete request. -/
theorem title_upstream_amended_witness :
    (suggestTitleHandler w3Oracle w3Req).2 =
      HttpResp.json500 (llmErrPre ++ "boom".toList) :=
  title_upstream_amended.2 w3Oracle w3Req
    { ok := true, body := "<html/>".toList }
    { ok := false, body := "boom".toList, content := none }
    (by decide) (by decide) rfl rfl rfl

/-- Oracle for C9: credentials configured, page fetch succeeds, and the
provider returns the completion `"My Great Article"`. -/
def c9Oracle : TitleOracle :=
  { apiKey := "k".toList,
    pageFetch := Except.ok { ok := true, body := "<html/>".toList },
    llm := Except.ok { ok := true, body := [],
                       content := some ("My Great Article".toList) } }

/-- Request for C9. -/
def c9Req : Option TitleBody := some ⟨some ("http://example.com".toList)⟩

/-- C9 (counterexample): with the provider returning `"My Great Article"`,
the endpoint does NOT respond `{title: "My-Great-Article"}` — spaces are not
in the sanitizer's reserved set, so they pass through unchanged. -/
theorem title_spaces_counterexample :
    (suggestTitleHandler c9Oracle c9Req).2 ≠
      HttpResp.json200 ("My-Great-Article".toList) := by decide

/-- C9 (amended): for a valid URL with credentials configured, a successful
completion whose trimmed text is non-empty yields HTTP 200 with the
sanitized trimmed completion as the title; for `"My Great Article"` the
sanitizer leaves the spaces intact, so the title is `"My Great Article"`. -/
theorem title_completion_sanitized :
    ∀ (o : TitleOracle) (req : Option TitleBody) (pr : PageResp) (bb : Str) (c : Str),
      isValidHttpUrl (req.getD ⟨none⟩).url = true →
      o.apiKey ≠ [] →
      o.pageFetch = Except.ok pr →
      o.llm = Except.ok { ok := true, body := bb, content := some c } →
      jsTrim c ≠ [] →
      (suggestTitleHandler o req).2 =
        HttpResp.json200 (sanitizeFilename (some (jsTrim c))) := by
  intro o req pr bb c hv hkey hfetch hllm htr
  simp only [suggestTitleHandler, hv, if_true, hfetch, suggestTitleFromText, hkey,
    if_neg hkey, hllm]
  simp [htr]

/-- C9 witness: the amended statement evaluated at the concrete oracle,
showing the exact response `{title: "My Great Article"}`. -/
theorem title_completion_sanitized_witness :
    (suggestTitleHandler c9Oracle c9Req).2 =
      HttpResp.json200 ("My Great Article".toList) := by
  rw [title_completion_sanitized c9Oracle c9Req
    { ok := true, body := "<html/>".toList } [] ("My Great Article".toList)
    (by decide) (by decide) rfl rfl (by decide)]
  decide

/-- C10: a request whose JSON body is absent (`req.body` undefined) is
answered by both endpoints with the HTTP 400 invalid-URL response: the
destructured `url` is `undefined`, `new URL(undefined)` throws inside
`isValidHttpUrl`, and the `catch` yields `false` before any other work. -/
theorem missing_body_yields_400 (ot : TitleOracle) (op : PdfOracle) :
    suggestTitleHandler ot none = ([], HttpResp.json400 invalidUrlMsg) ∧
    printPdf op none = ([], HttpResp.badRequestText invalidUrlMsg) :=
  ⟨rfl, rfl⟩

end TwoPdf
